import Mathlib

/-!
Verification of the session registry and media-stream protocol engine of the
agentic-ai-ivr-demo WebSocket service.

Shallow embedding notes:
* Python dicts are modelled as insertion-ordered association lists
  (`List (key × value)`); key uniqueness, which Python dicts guarantee, is an
  explicit hypothesis (`keysNodup`) where a theorem needs it.
* JSON values received on the wire are modelled by the inductive `Json`
  (numbers as `Int`: the protocol's numeric fields are integers).
* `uuid7()` is a fresh-identifier source; it is modelled as a monotone counter
  `nextId` carried by the manager, so freshness of generated ids corresponds
  to the invariant that every registered id is below `nextId`.
* The WebSocket transport handle is opaque; for `close_all` only the outcome
  of `await websocket.close()` matters, modelled by the flag `closeFails`
  (true when close raises an exception, e.g. already-closed transports).
* Logging is pure observation; where a claim counts log lines (the media
  suppression policy) the engine state carries an explicit counter.
-/

set_option autoImplicit false

namespace IVR

/-- JSON-like wire values (models the dict produced by receive_json). -/
inductive Json where
  | null
  | str (s : String)
  | num (n : Int)
  | bool (b : Bool)
  | arr (elems : List Json)
  | obj (fields : List (String × Json))

/-- Structural decidable equality for `Json` (nested inductive, so written by hand). -/
def Json.beq : Json → Json → Bool
  | .null, .null => true
  | .str a, .str b => a == b
  | .num a, .num b => a == b
  | .bool a, .bool b => a == b
  | .arr a, .arr b => beqList a b
  | .obj a, .obj b => beqObj a b
  | _, _ => false
where
  beqList : List Json → List Json → Bool
    | [], [] => true
    | x :: xs, y :: ys => x.beq y && beqList xs ys
    | _, _ => false
  beqObj : List (String × Json) → List (String × Json) → Bool
    | [], [] => true
    | (k, x) :: xs, (l, y) :: ys => k == l && x.beq y && beqObj xs ys
    | _, _ => false

/-- Python dict lookup (dict.get with default None): the value stored under
the key, none when absent. First match; dict keys are unique. -/
def dictGet {α β : Type} [DecidableEq α] : List (α × β) → α → Option β
  | [], _ => none
  | (k, v) :: rest, key => if k = key then some v else dictGet rest key

/-- Python del d[key]: drop the entry under the key (all matches; a dict
holds at most one). -/
def dictErase {α β : Type} [DecidableEq α] : List (α × β) → α → List (α × β)
  | [], _ => []
  | (k, v) :: rest, key =>
    if k = key then dictErase rest key else (k, v) :: dictErase rest key

/-- In-place modification of the value stored under a key (d[key].field = x);
entries under other keys are untouched. -/
def dictModify {α β : Type} [DecidableEq α] :
    List (α × β) → α → (β → β) → List (α × β)
  | [], _, _ => []
  | (k, v) :: rest, key, f =>
    if k = key then (k, f v) :: dictModify rest key f
    else (k, v) :: dictModify rest key f

/-- Field lookup on a JSON object (Python dict .get): none for non-objects. -/
def getField : Json → String → Option Json
  | .obj fields, k => dictGet fields k
  | _, _ => none

/-- Coerce a JSON value into a string, as pydantic does for a str field
(strict on type: numbers are not accepted for str fields). -/
def asStr : Json → Option String
  | .str s => some s
  | _ => none

/-- Accumulate a run of decimal digits; any non-digit character fails. -/
def digitsValGo : List Char → Nat → Option Nat
  | [], acc => some acc
  | c :: rest, acc =>
    if c.isDigit then digitsValGo rest (acc * 10 + (c.toNat - 48)) else none

/-- Python int(s) on a string: optional leading minus then decimal digits
(surrounding whitespace, an explicit plus sign and underscore separators,
which Python also tolerates, are not modelled). -/
def strToInt : String → Option Int
  | s =>
    match s.toList with
    | [] => none
    | c :: rest =>
      if c = '-' then
        match rest with
        | [] => none
        | _ => (digitsValGo rest 0).map (fun n => -(n : Int))
      else (digitsValGo (c :: rest) 0).map (fun n => (n : Int))

/-- Coerce a JSON value into an integer: native numbers pass through, numeric
strings are converted (this mirrors both the pydantic lax int coercion and
the explicit convert_str_to_int field validator on chunk/timestamp). -/
def jsonToInt : Json → Option Int
  | .num n => some n
  | .str s => strToInt s
  | _ => none

/-- Interpret a JSON value as a list of strings (the tracks field). -/
def asStrList : Json → Option (List String)
  | .arr elems => elems.mapM asStr
  | _ => none

/-- Interpret a JSON value as an open string-keyed object (customParameters). -/
def asObj : Json → Option (List (String × Json))
  | .obj fields => some fields
  | _ => none

/-- models.media_streaming.MediaFormat. -/
structure MediaFormat where
  encoding : String
  sampleRate : Int
  channels : Int
deriving DecidableEq

/-- models.media_streaming.StartDetails. -/
structure StartDetails where
  accountSid : String
  streamSid : String
  callSid : String
  tracks : List String
  mediaFormat : MediaFormat
  customParameters : List (String × Json)

/-- models.media_streaming.MediaDetails (after validation, track is one of
inbound or outbound, and chunk/timestamp have been coerced to integers). -/
structure MediaDetails where
  track : String
  chunk : Int
  timestamp : Int
  payload : String
deriving DecidableEq

/-- models.media_streaming.StopDetails. -/
structure StopDetails where
  accountSid : String
  callSid : String
deriving DecidableEq

/-- models.media_streaming.Message: the closed tagged union of protocol
messages (ConnectedMessage | StartMessage | MediaMessage | StopMessage). -/
inductive Msg where
  | connected (protocol version : String)
  | start (start : StartDetails) (streamSid : String)
  | media (media : MediaDetails) (streamSid : String)
  | stop (stop : StopDetails) (streamSid : String)

/-- Validate the payload of a MediaFormat object. -/
def parseMediaFormat (j : Json) : Option MediaFormat := do
  let encoding ← asStr (← getField j "encoding")
  let sampleRate ← jsonToInt (← getField j "sampleRate")
  let channels ← jsonToInt (← getField j "channels")
  pure { encoding := encoding, sampleRate := sampleRate, channels := channels }

/-- Validate the payload of a StartDetails object. -/
def parseStartDetails (j : Json) : Option StartDetails := do
  let accountSid ← asStr (← getField j "accountSid")
  let streamSid ← asStr (← getField j "streamSid")
  let callSid ← asStr (← getField j "callSid")
  let tracks ← asStrList (← getField j "tracks")
  let mediaFormat ← parseMediaFormat (← getField j "mediaFormat")
  let customParameters ← asObj (← getField j "customParameters")
  pure { accountSid := accountSid, streamSid := streamSid, callSid := callSid,
         tracks := tracks, mediaFormat := mediaFormat,
         customParameters := customParameters }

/-- Validate the payload of a MediaDetails object (track is a literal of
inbound or outbound; chunk and timestamp accept ints or numeric strings). -/
def parseMediaDetails (j : Json) : Option MediaDetails := do
  let track ← asStr (← getField j "track")
  if track = "inbound" ∨ track = "outbound" then
    let chunk ← jsonToInt (← getField j "chunk")
    let timestamp ← jsonToInt (← getField j "timestamp")
    let payload ← asStr (← getField j "payload")
    pure { track := track, chunk := chunk, timestamp := timestamp,
           payload := payload }
  else none

/-- Validate the payload of a StopDetails object. -/
def parseStopDetails (j : Json) : Option StopDetails := do
  let accountSid ← asStr (← getField j "accountSid")
  let callSid ← asStr (← getField j "callSid")
  pure { accountSid := accountSid, callSid := callSid }

/-- Message.model_validate: dispatch on the event tag to the matching variant
of the union; a message whose event tag is absent, unrecognized, or whose
required fields fail validation yields none (a pydantic ValidationError). -/
def parseMessage (j : Json) : Option Msg := do
  let ev ← asStr (← getField j "event")
  if ev = "connected" then
    let protocol ← asStr (← getField j "protocol")
    let version ← asStr (← getField j "version")
    pure (.connected protocol version)
  else if ev = "start" then
    let startDetails ← parseStartDetails (← getField j "start")
    let streamSid ← asStr (← getField j "streamSid")
    pure (.start startDetails streamSid)
  else if ev = "media" then
    let mediaDetails ← parseMediaDetails (← getField j "media")
    let streamSid ← asStr (← getField j "streamSid")
    pure (.media mediaDetails streamSid)
  else if ev = "stop" then
    let stopDetails ← parseStopDetails (← getField j "stop")
    let streamSid ← asStr (← getField j "streamSid")
    pure (.stop stopDetails streamSid)
  else none

/-- Opaque transport handle. wsId identifies the underlying channel;
closeFails records whether awaiting websocket.close() raises (for instance
because the transport is already closed). -/
structure WebSocketHandle where
  wsId : Nat
  closeFails : Bool
deriving DecidableEq

/-- connection_manager.Session. -/
structure Session where
  session_id : Nat
  websocket : WebSocketHandle
  client_host : String
  client_port : Nat
  headers : List (String × String)
  query_params : List (String × String)
  metadata : List (String × Json)

/-- connection_manager.ConnectionManager state: the session mapping (insertion
ordered, as a Python dict) plus the shutdown flag; nextId models the uuid7
fresh-identifier source. -/
structure ConnectionManager where
  sessions : List (Nat × Session)
  is_shutting_down : Bool
  nextId : Nat

/-- The keys of a Python dict are pairwise distinct. -/
abbrev keysNodup (cm : ConnectionManager) : Prop :=
  (cm.sessions.map Prod.fst).Nodup

/-- ConnectionManager.connect: allocates a fresh id, stores a new Session
(empty metadata), returns the id. Note: the implementation does not consult
is_shutting_down. -/
def ConnectionManager.connect (cm : ConnectionManager) (websocket : WebSocketHandle)
    (client_host : String) (client_port : Nat)
    (headers query_params : List (String × String)) : Nat × ConnectionManager :=
  let session_id := cm.nextId
  let session : Session :=
    { session_id := session_id, websocket := websocket,
      client_host := client_host, client_port := client_port,
      headers := headers, query_params := query_params, metadata := [] }
  (session_id,
   { cm with sessions := cm.sessions ++ [(session_id, session)],
             nextId := cm.nextId + 1 })

/-- ConnectionManager.disconnect: remove the session if present, else no-op. -/
def ConnectionManager.disconnect (cm : ConnectionManager) (session_id : Nat) :
    ConnectionManager :=
  { cm with sessions := dictErase cm.sessions session_id }

/-- ConnectionManager.get_session. -/
def ConnectionManager.get_session (cm : ConnectionManager) (session_id : Nat) :
    Option Session :=
  dictGet cm.sessions session_id

/-- Python dict insertion: replace in place when the key exists, append
otherwise. -/
def dictInsert (d : List (String × Json)) (k : String) (v : Json) :
    List (String × Json) :=
  if d.any (fun p => p.1 = k) then
    d.map (fun p => if p.1 = k then (k, v) else p)
  else d ++ [(k, v)]

/-- Python dict.update: merge every pair of upd into d, left to right. -/
def dictUpdate (d upd : List (String × Json)) : List (String × Json) :=
  upd.foldl (fun acc p => dictInsert acc p.1 p.2) d

/-- ConnectionManager.update_metadata: merge into the session metadata if the
session exists; no-op otherwise. -/
def ConnectionManager.update_metadata (cm : ConnectionManager) (session_id : Nat)
    (metadata : List (String × Json)) : ConnectionManager :=
  let f := fun s => { s with metadata := dictUpdate s.metadata metadata }
  { cm with sessions := dictModify cm.sessions session_id f }

/-- ConnectionManager.active_count. -/
def ConnectionManager.active_count (cm : ConnectionManager) : Nat :=
  cm.sessions.length

/-- ConnectionManager.begin_shutdown: set the flag (idempotent). -/
def ConnectionManager.begin_shutdown (cm : ConnectionManager) : ConnectionManager :=
  if cm.is_shutting_down then cm else { cm with is_shutting_down := true }

/-- Outcome of ConnectionManager.close_all: the returned count of transports
closed without error, the wsIds on which close was invoked (in order), and
the final manager state. -/
structure CloseAllResult where
  closed_count : Nat
  closedTransports : List Nat
  manager : ConnectionManager

/-- The body of the close_all loop over the snapshot of session ids: look the
id up; when found, await close (counting successes, logging failures), and in
the finally block disconnect the id. -/
def closeAllLoop (cm : ConnectionManager) : List Nat → Nat → List Nat →
    CloseAllResult
  | [], count, closed =>
      { closed_count := count, closedTransports := closed, manager := cm }
  | session_id :: rest, count, closed =>
    match cm.get_session session_id with
    | none => closeAllLoop cm rest count closed
    | some session =>
        let count2 := if session.websocket.closeFails then count else count + 1
        closeAllLoop (cm.disconnect session_id) rest count2
          (closed ++ [session.websocket.wsId])

/-- ConnectionManager.close_all: snapshot the registered ids once, then close
and remove each. -/
def ConnectionManager.close_all (cm : ConnectionManager) : CloseAllResult :=
  closeAllLoop cm (cm.sessions.map Prod.fst) 0 []

/-- Per-session loop state of routes.websocket.receive_media: message_count
and has_seen_media are local variables of the handler; mediaLogCount counts
the individual Media log lines emitted (for the suppression policy);
terminated records that the stop branch executed break. -/
structure EngineState where
  message_count : Nat
  has_seen_media : Bool
  mediaLogCount : Nat
  terminated : Bool
deriving DecidableEq

/-- Initial loop state: message_count = 0, has_seen_media = False. -/
def initialEngineState : EngineState :=
  { message_count := 0, has_seen_media := false, mediaLogCount := 0,
    terminated := false }

/-- The twilio_metadata dict built by the start branch of receive_media:
read from the raw JSON message (media.get with defaults), not from the
validated model. -/
def extractTwilioMetadata (j : Json) : List (String × Json) :=
  let start_data := (getField j "start").getD (Json.obj [])
  [("stream_sid", (getField start_data "streamSid").getD Json.null),
   ("call_sid", (getField start_data "callSid").getD Json.null),
   ("account_sid", (getField start_data "accountSid").getD Json.null)]

/-- One iteration of the receive_media loop body on a raw message: validate
(on ValidationError, log and continue with nothing changed), dispatch on the
event tag, and increment message_count — except on stop, whose branch breaks
out of the loop before the increment is reached. -/
def processMessage (cm : ConnectionManager) (session_id : Nat)
    (st : EngineState) (j : Json) : ConnectionManager × EngineState :=
  match parseMessage j with
  | none => (cm, st)
  | some msg =>
    match msg with
    | .connected _ _ =>
        (cm, { st with message_count := st.message_count + 1 })
    | .start _ _ =>
        (cm.update_metadata session_id (extractTwilioMetadata j),
         { st with message_count := st.message_count + 1 })
    | .media _ _ =>
        let st2 :=
          if st.has_seen_media then st
          else { st with has_seen_media := true,
                         mediaLogCount := st.mediaLogCount + 1 }
        (cm, { st2 with message_count := st2.message_count + 1 })
    | .stop _ _ =>
        (cm, { st with terminated := true })

/-- The receive_media loop over a finite incoming message sequence: process
each raw message in turn, stopping as soon as the stop branch has executed
break. (Transport disconnects and errors exit the loop by exception; a
sequence that runs out models them, with the same state on exit.) -/
def runEngine (cm : ConnectionManager) (session_id : Nat) (st : EngineState) :
    List Json → ConnectionManager × EngineState
  | [] => (cm, st)
  | j :: rest =>
    let out := processMessage cm session_id st j
    if out.2.terminated then out
    else runEngine out.1 session_id out.2 rest

/-- The whole media session after the connection is registered: run the loop,
then the finally block disconnects the session from the registry whatever the
exit path was. The final message_count is what the Connection closed log line
reports. -/
def runMediaSession (cm : ConnectionManager) (session_id : Nat)
    (msgs : List Json) : ConnectionManager × EngineState :=
  let out := runEngine cm session_id initialEngineState msgs
  (out.1.disconnect session_id, out.2)

/-- Outcome of the handshake gate: allow the connection to proceed, or reject
it by raising WebSocketDisconnect with the given closure code. -/
inductive GateResult where
  | allow
  | reject (code : Nat)
deriving DecidableEq

/-- Python truthiness of the signature header: absent and empty string are
both falsy (if not signature). -/
def signaturePresent : Option String → Bool
  | none => false
  | some s => s ≠ ""

/-- dependencies.validate_twilio_websocket: bypass unconditionally when the
environment is development; otherwise require the X-Twilio-Signature header
(absence rejects with policy-violation code 1008) and delegate signature
verification to the external validator (modelled by signatureValid, the
outcome of RequestValidator.validate on the wss-normalized URL), rejecting
with 1008 on failure. -/
def validate_twilio_websocket (environment : String)
    (headers : List (String × String)) (signatureValid : Bool) : GateResult :=
  if environment = "development" then .allow
  else
    if signaturePresent (dictGet headers "X-Twilio-Signature") then
      if signatureValid then .allow else .reject 1008
    else .reject 1008

/-- The connection phase of routes.websocket.receive_media as implemented:
extract metadata, accept the socket, and register a session with the
connection manager. No signature gate is invoked on this path — the
environment and the headers' signature field do not influence it (the
dependency validate_twilio_websocket is defined but not attached to the
route), which is why the environment argument is unused here. -/
def receiveMediaHandshake (environment : String) (cm : ConnectionManager)
    (websocket : WebSocketHandle) (client_host : String) (client_port : Nat)
    (headers query_params : List (String × String)) : Nat × ConnectionManager :=
  let _ := environment
  cm.connect websocket client_host client_port headers query_params

/-- Does the raw message validate at all? -/
def parsesOk (j : Json) : Bool :=
  (parseMessage j).isSome

/-- Does the raw message validate as a Stop message? -/
def isStopMsg (j : Json) : Bool :=
  match parseMessage j with
  | some (.stop _ _) => true
  | _ => false

/-- Does the raw message validate as a Media message? -/
def isMediaMsg (j : Json) : Bool :=
  match parseMessage j with
  | some (.media _ _) => true
  | _ => false

/-! Concrete fixtures used by witnesses and counterexamples. -/

/-- A manager as built at process start: no sessions, not shutting down. -/
def emptyManager : ConnectionManager :=
  { sessions := [], is_shutting_down := false, nextId := 0 }

/-- A concrete transport handle whose close succeeds. -/
def wsOk : WebSocketHandle := { wsId := 7, closeFails := false }

/-- A concrete transport handle whose close raises. -/
def wsBad : WebSocketHandle := { wsId := 9, closeFails := true }

/-- A manager holding one session (id 0) on transport wsOk. -/
def cmOne : ConnectionManager :=
  (emptyManager.connect wsOk "203.0.113.7" 5004 [] []).2

/-- A manager holding two sessions: id 0 on wsOk and id 1 on wsBad. -/
def cmTwo : ConnectionManager :=
  (cmOne.connect wsBad "203.0.113.8" 5005 [] []).2

/-- The wire framing of the Start message of the spec example: the start
payload {accountSid AC1, streamSid MZ1, callSid CA1, tracks [inbound],
mediaFormat {audio/x-mulaw, 8000, 1}, customParameters {}} inside a frame
with the event tag and the top-level streamSid that a Start message carries. -/
def jStartWire : Json :=
  .obj [("event", .str "start"),
        ("streamSid", .str "MZ1"),
        ("start", .obj
          [("accountSid", .str "AC1"), ("streamSid", .str "MZ1"),
           ("callSid", .str "CA1"), ("tracks", .arr [.str "inbound"]),
           ("mediaFormat", .obj
             [("encoding", .str "audio/x-mulaw"), ("sampleRate", .num 8000),
              ("channels", .num 1)]),
           ("customParameters", .obj [])])]

/-- A valid Connected message. -/
def jConnectedWire : Json :=
  .obj [("event", .str "connected"), ("protocol", .str "Call"),
        ("version", .str "1.0.0")]

/-- A valid Media message (chunk supplied as a numeric string). -/
def jMediaWire : Json :=
  .obj [("event", .str "media"), ("streamSid", .str "MZ1"),
        ("media", .obj
          [("track", .str "inbound"), ("chunk", .str "5"),
           ("timestamp", .num 100), ("payload", .str "b64")])]

/-- A valid Stop message. -/
def jStopWire : Json :=
  .obj [("event", .str "stop"), ("streamSid", .str "MZ1"),
        ("stop", .obj
          [("accountSid", .str "AC1"), ("callSid", .str "CA1")])]

/-- A message with an unrecognized event tag. -/
def jUnknownWire : Json :=
  .obj [("event", .str "unknown_thing")]

/-!  Association-list lemmas shared by the registry proofs. -/

section DictLemmas

variable {α β : Type} [DecidableEq α]

theorem dictGet_cons (k : α) (v : β) (rest : List (α × β)) (key : α) :
    dictGet ((k, v) :: rest) key = if k = key then some v else dictGet rest key :=
  rfl

theorem dictErase_cons (k : α) (v : β) (rest : List (α × β)) (key : α) :
    dictErase ((k, v) :: rest) key
      = if k = key then dictErase rest key else (k, v) :: dictErase rest key :=
  rfl

theorem dictModify_cons (k : α) (v : β) (rest : List (α × β)) (key : α)
    (f : β → β) :
    dictModify ((k, v) :: rest) key f
      = if k = key then (k, f v) :: dictModify rest key f
        else (k, v) :: dictModify rest key f :=
  rfl

theorem dictGet_none_iff (l : List (α × β)) (i : α) :
    dictGet l i = none ↔ i ∉ l.map Prod.fst := by
  induction l with
  | nil => simp [dictGet]
  | cons p rest ih =>
    obtain ⟨k, v⟩ := p
    rw [dictGet_cons]
    by_cases hk : k = i
    · simp [hk]
    · rw [if_neg hk]
      simp only [List.map_cons, List.mem_cons, not_or, ih]
      constructor
      · intro h2
        exact ⟨fun hik => hk hik.symm, h2⟩
      · intro h2
        exact h2.2

theorem dictErase_of_not_mem (l : List (α × β)) (i : α)
    (h : i ∉ l.map Prod.fst) : dictErase l i = l := by
  induction l with
  | nil => rfl
  | cons p rest ih =>
    obtain ⟨k, v⟩ := p
    simp only [List.map_cons, List.mem_cons, not_or] at h
    rw [dictErase_cons, if_neg (fun hh => h.1 hh.symm), ih h.2]

theorem dictGet_dictErase_ne (l : List (α × β)) (i j : α) (h : j ≠ i) :
    dictGet (dictErase l i) j = dictGet l j := by
  induction l with
  | nil => rfl
  | cons p rest ih =>
    obtain ⟨k, v⟩ := p
    rw [dictErase_cons]
    by_cases hk : k = i
    · have hkj : ¬ k = j := fun hh => h (hh.symm.trans hk)
      rw [if_pos hk, dictGet_cons, if_neg hkj, ih]
    · rw [if_neg hk, dictGet_cons, dictGet_cons, ih]

theorem dictGet_dictModify_ne (l : List (α × β)) (i j : α) (f : β → β)
    (h : j ≠ i) :
    dictGet (dictModify l i f) j = dictGet l j := by
  induction l with
  | nil => rfl
  | cons p rest ih =>
    obtain ⟨k, v⟩ := p
    rw [dictModify_cons]
    by_cases hk : k = i
    · have hkj : ¬ k = j := fun hh => h (hh.symm.trans hk)
      rw [if_pos hk, dictGet_cons, if_neg hkj, dictGet_cons, if_neg hkj, ih]
    · rw [if_neg hk, dictGet_cons, dictGet_cons, ih]

theorem dictGet_dictModify_eq (l : List (α × β)) (i : α) (f : β → β) :
    dictGet (dictModify l i f) i = (dictGet l i).map f := by
  induction l with
  | nil => rfl
  | cons p rest ih =>
    obtain ⟨k, v⟩ := p
    rw [dictModify_cons]
    by_cases hk : k = i
    · rw [if_pos hk, dictGet_cons, if_pos hk, dictGet_cons, if_pos hk]
      rfl
    · rw [if_neg hk, dictGet_cons, if_neg hk, dictGet_cons, if_neg hk, ih]

theorem dictErase_length_nodup (l : List (α × β)) (i : α)
    (hnd : (l.map Prod.fst).Nodup) :
    (dictErase l i).length
      = if (dictGet l i).isSome then l.length - 1 else l.length := by
  induction l with
  | nil => rfl
  | cons p rest ih =>
    obtain ⟨k, v⟩ := p
    simp only [List.map_cons, List.nodup_cons] at hnd
    rw [dictErase_cons, dictGet_cons]
    by_cases hk : k = i
    · subst hk
      rw [if_pos rfl, if_pos rfl, dictErase_of_not_mem rest k hnd.1]
      simp
    · rw [if_neg hk, if_neg hk]
      by_cases hs : (dictGet rest i).isSome
      · have hlen : 1 ≤ rest.length := by
          cases rest with
          | nil => simp [dictGet] at hs
          | cons q qs => simp
        rw [if_pos hs]
        simp only [List.length_cons, ih hnd.2, if_pos hs]
        omega
      · rw [if_neg hs]
        simp only [List.length_cons, ih hnd.2, if_neg hs]

theorem dictErase_idem (l : List (α × β)) (i : α) :
    dictErase (dictErase l i) i = dictErase l i := by
  induction l with
  | nil => rfl
  | cons p rest ih =>
    obtain ⟨k, v⟩ := p
    rw [dictErase_cons]
    by_cases hk : k = i
    · rw [if_pos hk, ih]
    · rw [if_neg hk, dictErase_cons, if_neg hk, ih]

end DictLemmas

/-!  Protocol-engine step lemmas shared by the loop proofs. -/

theorem processMessage_nonstop (cm : ConnectionManager) (sid : Nat)
    (st : EngineState) (j : Json) (hok : parsesOk j = true)
    (hstop : isStopMsg j = false) :
    (processMessage cm sid st j).2.message_count = st.message_count + 1 ∧
    (processMessage cm sid st j).2.terminated = st.terminated := by
  unfold processMessage
  cases hp : parseMessage j with
  | none =>
    rw [parsesOk, hp] at hok
    simp at hok
  | some m =>
    cases m with
    | connected p v => simp
    | start s ss => simp
    | media md ss =>
      by_cases hm : st.has_seen_media <;> simp [hm]
    | stop sd ss =>
      rw [isStopMsg, hp] at hstop
      simp at hstop

theorem processMessage_stop (cm : ConnectionManager) (sid : Nat)
    (st : EngineState) (j : Json) (hstop : isStopMsg j = true) :
    processMessage cm sid st j = (cm, { st with terminated := true }) := by
  unfold processMessage
  cases hp : parseMessage j with
  | none =>
    rw [isStopMsg, hp] at hstop
    simp at hstop
  | some m =>
    cases m with
    | connected p v =>
      rw [isStopMsg, hp] at hstop
      simp at hstop
    | start s ss =>
      rw [isStopMsg, hp] at hstop
      simp at hstop
    | media md ss =>
      rw [isStopMsg, hp] at hstop
      simp at hstop
    | stop sd ss => rfl

theorem processMessage_media (cm : ConnectionManager) (sid : Nat)
    (st : EngineState) (j : Json) (hmed : isMediaMsg j = true) :
    processMessage cm sid st j
      = (cm,
         { message_count := st.message_count + 1, has_seen_media := true,
           mediaLogCount :=
             st.mediaLogCount + (if st.has_seen_media then 0 else 1),
           terminated := st.terminated }) := by
  unfold processMessage
  cases hp : parseMessage j with
  | none =>
    rw [isMediaMsg, hp] at hmed
    simp at hmed
  | some m =>
    cases m with
    | connected p v =>
      rw [isMediaMsg, hp] at hmed
      simp at hmed
    | start s ss =>
      rw [isMediaMsg, hp] at hmed
      simp at hmed
    | media md ss =>
      by_cases hm : st.has_seen_media <;> simp [hm]
    | stop sd ss =>
      rw [isMediaMsg, hp] at hmed
      simp at hmed

theorem runEngine_media_seen (ms : List Json) :
    ∀ (cm : ConnectionManager) (sid : Nat) (st : EngineState),
      (∀ j ∈ ms, isMediaMsg j = true) →
      st.has_seen_media = true → st.terminated = false →
      runEngine cm sid st ms
        = (cm, { st with message_count := st.message_count + ms.length }) := by
  induction ms with
  | nil =>
    intro cm sid st _ _ _
    cases st
    rfl
  | cons j rest ih =>
    intro cm sid st hall hseen hterm
    obtain ⟨mc, hs, ml, tm⟩ := st
    simp only at hseen hterm
    subst hseen
    subst hterm
    have hstep := processMessage_media cm sid ⟨mc, true, ml, false⟩ j
      (hall j (by simp))
    unfold runEngine
    rw [hstep]
    simp only [if_true, Nat.add_zero]
    rw [ih cm sid ⟨mc + 1, true, ml, false⟩
      (fun x hx => hall x (List.mem_cons_of_mem _ hx)) rfl rfl]
    simp only [Bool.false_eq_true, if_false, Prod.mk.injEq,
      EngineState.mk.injEq, List.length_cons, true_and, and_true]
    omega

theorem runEngine_nonstop_then_stop (pre : List Json) :
    ∀ (cm : ConnectionManager) (sid : Nat) (st : EngineState) (j : Json),
      (∀ x ∈ pre, parsesOk x = true ∧ isStopMsg x = false) →
      st.terminated = false → isStopMsg j = true →
      (runEngine cm sid st (pre ++ [j])).2.message_count
          = st.message_count + pre.length ∧
      (runEngine cm sid st (pre ++ [j])).2.terminated = true := by
  induction pre with
  | nil =>
    intro cm sid st j _ hterm hstop
    have hstep := processMessage_stop cm sid st j hstop
    obtain ⟨mc, hs, ml, tm⟩ := st
    simp only [List.nil_append]
    unfold runEngine
    rw [hstep]
    simp
  | cons x rest ih =>
    intro cm sid st j hall hterm hstop
    have hx := hall x (by simp)
    have hstep := processMessage_nonstop cm sid st x hx.1 hx.2
    have hterm2 : (processMessage cm sid st x).2.terminated = false :=
      hstep.2.trans hterm
    have hrec := ih (processMessage cm sid st x).1 sid
      (processMessage cm sid st x).2 j
      (fun y hy => hall y (by simp [hy])) hterm2 hstop
    simp only [List.cons_append]
    unfold runEngine
    simp only [hterm2, Bool.false_eq_true, if_false]
    refine ⟨?_, hrec.2⟩
    rw [hrec.1, hstep.1]
    simp only [List.length_cons]
    omega

/-!  Theorems settling the claims. -/

/-- C1. The claim says connect fails with RegistryClosed once beginShutdown
has been called and leaves the registry unchanged. The implementation never
consults the flag: after begin_shutdown (flag set), connect still registers a
session and active_count increases by one, contradicting the documented
purpose of begin_shutdown (rejecting new connections). -/
theorem C1_connect_ignores_shutdown :
    ∀ (cm : ConnectionManager) (ws : WebSocketHandle) (host : String)
      (port : Nat) (hd qp : List (String × String)),
      cm.begin_shutdown.is_shutting_down = true ∧
      (cm.begin_shutdown.connect ws host port hd qp).2.active_count
        = cm.active_count + 1 := by
  intro cm ws host port hd qp
  unfold ConnectionManager.begin_shutdown ConnectionManager.connect
    ConnectionManager.active_count
  by_cases h : cm.is_shutting_down <;> simp [h]

/-- C4. A raw message that fails validation (event tag absent, unrecognized,
or required fields invalid, i.e. parseMessage gives none) is dropped without
mutating anything: the manager (hence registry and metadata) and the whole
loop state (message counter included) are unchanged, and the loop goes on to
the next message instead of terminating. -/
theorem C4_malformed_no_mutation :
    ∀ (cm : ConnectionManager) (sid : Nat) (st : EngineState) (j : Json)
      (rest : List Json),
      parseMessage j = none → st.terminated = false →
      processMessage cm sid st j = (cm, st) ∧
      runEngine cm sid st (j :: rest) = runEngine cm sid st rest := by
  intro cm sid st j rest hparse hterm
  have hstep : processMessage cm sid st j = (cm, st) := by
    unfold processMessage
    rw [hparse]
  refine ⟨hstep, ?_⟩
  unfold runEngine
  rw [hstep]
  simp only [hterm, Bool.false_eq_true, if_false]
  cases rest <;> rfl

/-- C4 witness: the message with event tag unknown_thing is rejected and
changes nothing in a concrete one-session state. -/
theorem C4_malformed_no_mutation_witness :
    processMessage cmOne 0 initialEngineState jUnknownWire
        = (cmOne, initialEngineState) ∧
    runEngine cmOne 0 initialEngineState [jUnknownWire]
        = runEngine cmOne 0 initialEngineState [] :=
  C4_malformed_no_mutation cmOne 0 initialEngineState jUnknownWire [] rfl rfl

/-- C8. The Start message of the spec example parses successfully, and
dispatching it writes exactly the three entries stream_sid MZ1, call_sid CA1,
account_sid AC1 into the owning session's metadata (which was empty), while
the message counter registers it. -/
theorem C8_start_metadata_exact :
    (parseMessage jStartWire).isSome = true ∧
    ((processMessage cmOne 0 initialEngineState jStartWire).1.get_session 0).map
        Session.metadata
      = some [("stream_sid", Json.str "MZ1"), ("call_sid", Json.str "CA1"),
              ("account_sid", Json.str "AC1")] ∧
    (processMessage cmOne 0 initialEngineState jStartWire).2.message_count = 1 :=
  ⟨rfl, rfl, rfl⟩

/-- C5. Under the freshness invariant of the id source (every registered id
is below nextId, the uuid7 model), a successful connect returns an id that
is distinct from every currently registered id, active_count grows by
exactly one, and the freshness invariant is preserved. -/
theorem C5_connect_fresh_unique :
    ∀ (cm : ConnectionManager) (ws : WebSocketHandle) (host : String)
      (port : Nat) (hd qp : List (String × String)),
      (∀ p ∈ cm.sessions, p.1 < cm.nextId) →
      (cm.connect ws host port hd qp).1 ∉ cm.sessions.map Prod.fst ∧
      (cm.connect ws host port hd qp).2.active_count = cm.active_count + 1 ∧
      (∀ p ∈ (cm.connect ws host port hd qp).2.sessions,
        p.1 < (cm.connect ws host port hd qp).2.nextId) := by
  intro cm ws host port hd qp hfresh
  refine ⟨?_, ?_, ?_⟩
  · intro hmem
    simp only [ConnectionManager.connect, List.mem_map] at hmem
    obtain ⟨p, hp, hfst⟩ := hmem
    exact absurd hfst (Nat.ne_of_lt (hfresh p hp))
  · simp [ConnectionManager.connect, ConnectionManager.active_count]
  · intro p hp
    simp only [ConnectionManager.connect, List.mem_append,
      List.mem_singleton] at hp
    rcases hp with hp | hp
    · exact Nat.lt_succ_of_lt (hfresh p hp)
    · subst hp
      exact Nat.lt_succ_self _

/-- C5 witness: connecting to the one-session manager (ids below nextId = 1)
yields the fresh id 1 and raises active_count from 1 to 2. -/
theorem C5_connect_fresh_unique_witness :
    (cmOne.connect wsBad "203.0.113.8" 5005 [] []).1
        ∉ cmOne.sessions.map Prod.fst ∧
    (cmOne.connect wsBad "203.0.113.8" 5005 [] []).2.active_count
        = cmOne.active_count + 1 ∧
    (∀ p ∈ (cmOne.connect wsBad "203.0.113.8" 5005 [] []).2.sessions,
      p.1 < (cmOne.connect wsBad "203.0.113.8" 5005 [] []).2.nextId) :=
  C5_connect_fresh_unique cmOne wsBad "203.0.113.8" 5005 [] []
    (by intro p hp; simp [cmOne, emptyManager, ConnectionManager.connect,
          wsOk] at hp; simp [hp, cmOne, emptyManager,
          ConnectionManager.connect])

/-- C9. disconnect is idempotent (a second disconnect of the same id changes
nothing), disconnecting an absent id is a no-op raising no error, and for a
registry with the dict key-uniqueness property the size decreases by one
exactly when the id was present. -/
theorem C9_disconnect_idempotent :
    ∀ (cm : ConnectionManager) (i : Nat), keysNodup cm →
      (cm.disconnect i).disconnect i = cm.disconnect i ∧
      (cm.get_session i = none → cm.disconnect i = cm) ∧
      (cm.disconnect i).active_count
        = (if (cm.get_session i).isSome then cm.active_count - 1
           else cm.active_count) := by
  intro cm i hnd
  refine ⟨?_, ?_, ?_⟩
  · unfold ConnectionManager.disconnect
    simp only [dictErase_idem]
  · intro hnone
    unfold ConnectionManager.get_session at hnone
    unfold ConnectionManager.disconnect
    rw [dictErase_of_not_mem cm.sessions i ((dictGet_none_iff _ _).mp hnone)]
  · unfold ConnectionManager.disconnect ConnectionManager.active_count
      ConnectionManager.get_session
    exact dictErase_length_nodup cm.sessions i hnd

/-- C9 witness: on the two-session manager, disconnecting id 0 twice equals
disconnecting it once, disconnecting the absent id 5 is a no-op, and the
size drops from 2 to 1 on the present id. -/
theorem C9_disconnect_idempotent_witness :
    ((cmTwo.disconnect 0).disconnect 0 = cmTwo.disconnect 0 ∧
      (cmTwo.get_session 0 = none → cmTwo.disconnect 0 = cmTwo) ∧
      (cmTwo.disconnect 0).active_count
        = (if (cmTwo.get_session 0).isSome then cmTwo.active_count - 1
           else cmTwo.active_count)) ∧
    ((cmTwo.disconnect 5).disconnect 5 = cmTwo.disconnect 5 ∧
      (cmTwo.get_session 5 = none → cmTwo.disconnect 5 = cmTwo) ∧
      (cmTwo.disconnect 5).active_count
        = (if (cmTwo.get_session 5).isSome then cmTwo.active_count - 1
           else cmTwo.active_count)) :=
  ⟨C9_disconnect_idempotent cmTwo 0 (by decide),
   C9_disconnect_idempotent cmTwo 5 (by decide)⟩

/-- C10. Frame conditions: disconnect(i) and update_metadata(i, m) leave the
session stored under any other id j untouched (the whole Session value,
metadata included) and leave the shutdown flag unchanged; update_metadata
changes at most the metadata field of the session named by its argument,
merging m into it. -/
theorem C10_frame_effects :
    ∀ (cm : ConnectionManager) (i j : Nat) (m : List (String × Json)),
      i ≠ j →
      (cm.disconnect i).get_session j = cm.get_session j ∧
      (cm.update_metadata i m).get_session j = cm.get_session j ∧
      (cm.disconnect i).is_shutting_down = cm.is_shutting_down ∧
      (cm.update_metadata i m).is_shutting_down = cm.is_shutting_down ∧
      (cm.update_metadata i m).get_session i
        = (cm.get_session i).map
            (fun s => { s with metadata := dictUpdate s.metadata m }) := by
  intro cm i j m hij
  refine ⟨?_, ?_, rfl, rfl, ?_⟩
  · unfold ConnectionManager.disconnect ConnectionManager.get_session
    exact dictGet_dictErase_ne cm.sessions i j (fun hh => hij hh.symm)
  · unfold ConnectionManager.update_metadata ConnectionManager.get_session
    exact dictGet_dictModify_ne cm.sessions i j _ (fun hh => hij hh.symm)
  · unfold ConnectionManager.update_metadata ConnectionManager.get_session
    exact dictGet_dictModify_eq cm.sessions i _

/-- C10 witness: on the two-session manager with i = 0 and j = 1, removing
or retagging session 0 leaves session 1 and the flag as they were, and
update_metadata rewrites exactly the metadata of session 0. -/
theorem C10_frame_effects_witness :
    (cmTwo.disconnect 0).get_session 1 = cmTwo.get_session 1 ∧
    (cmTwo.update_metadata 0 [("stream_sid", Json.str "X")]).get_session 1
        = cmTwo.get_session 1 ∧
    (cmTwo.disconnect 0).is_shutting_down = cmTwo.is_shutting_down ∧
    (cmTwo.update_metadata 0
        [("stream_sid", Json.str "X")]).is_shutting_down
      = cmTwo.is_shutting_down ∧
    (cmTwo.update_metadata 0 [("stream_sid", Json.str "X")]).get_session 0
      = (cmTwo.get_session 0).map
          (fun s =>
            { s with
              metadata := dictUpdate s.metadata [("stream_sid", Json.str "X")] }) :=
  C10_frame_effects cmTwo 0 1 [("stream_sid", Json.str "X")] (by decide)

/-- C2 counterexample. The claim says the counter is incremented for every
successfully parsed message including Stop, so a session consisting of one
parsed Stop message (k = 1) should report a final count of 1. The loop breaks
out of the stop branch before reaching the increment: the reported count
is 0, not 1. -/
theorem C2_stop_not_counted_cex :
    (runEngine cmOne 0 initialEngineState [jStopWire]).2.terminated = true ∧
    (runEngine cmOne 0 initialEngineState [jStopWire]).2.message_count = 0 ∧
    ¬ (runEngine cmOne 0 initialEngineState [jStopWire]).2.message_count
        = 1 :=
  ⟨rfl, rfl, by decide⟩

/-- C2 amended: the per-session counter is incremented exactly once for every
successfully parsed message except Stop, whose branch exits the loop before
the increment; after k successfully parsed messages of which the last is a
Stop, the reported final count is k - 1. -/
theorem C2_count_excludes_stop :
    ∀ (pre : List Json) (cm : ConnectionManager) (sid : Nat)
      (st : EngineState) (j : Json),
      (∀ x ∈ pre, parsesOk x = true ∧ isStopMsg x = false) →
      st.terminated = false → isStopMsg j = true →
      (runEngine cm sid st (pre ++ [j])).2.message_count
          = st.message_count + pre.length ∧
      (runEngine cm sid st (pre ++ [j])).2.terminated = true := by
  intro pre cm sid st j hall hterm hstop
  exact runEngine_nonstop_then_stop pre cm sid st j hall hterm hstop

/-- C2 witness: a session of three parsed messages (connected, media, stop)
reports a final count of 2 and terminates. -/
theorem C2_count_excludes_stop_witness :
    (runEngine cmOne 0 initialEngineState
        [jConnectedWire, jMediaWire, jStopWire]).2.message_count
      = initialEngineState.message_count + 2 ∧
    (runEngine cmOne 0 initialEngineState
        [jConnectedWire, jMediaWire, jStopWire]).2.terminated = true :=
  C2_count_excludes_stop [jConnectedWire, jMediaWire] cmOne 0
    initialEngineState jStopWire (by decide) rfl rfl

/-- C7. Across a run of N parsed Media messages (N ≥ 2) starting with the
has_seen_media flag clear, the engine emits the individual media log exactly
once (the counter of first-media log lines rises by one) while the message
counter rises by N; the registry is untouched by media handling. -/
theorem C7_media_logged_once_counted_each :
    ∀ (ms : List Json) (cm : ConnectionManager) (sid : Nat)
      (st : EngineState),
      (∀ j ∈ ms, isMediaMsg j = true) →
      st.has_seen_media = false → st.terminated = false → 2 ≤ ms.length →
      (runEngine cm sid st ms).2.mediaLogCount = st.mediaLogCount + 1 ∧
      (runEngine cm sid st ms).2.message_count
          = st.message_count + ms.length ∧
      (runEngine cm sid st ms).1 = cm := by
  intro ms cm sid st hall hseen hterm hlen
  cases ms with
  | nil => simp at hlen
  | cons j rest =>
    obtain ⟨mc, hs, ml, tm⟩ := st
    simp only at hseen hterm
    subst hseen
    subst hterm
    have hstep := processMessage_media cm sid ⟨mc, false, ml, false⟩ j
      (hall j (by simp))
    unfold runEngine
    rw [hstep]
    simp only [Bool.false_eq_true, if_false, Nat.add_zero]
    rw [runEngine_media_seen rest cm sid ⟨mc + 1, true, ml + 1, false⟩
      (fun x hx => hall x (List.mem_cons_of_mem _ hx)) rfl rfl]
    simp only [List.length_cons]
    refine ⟨trivial, ?_, trivial⟩
    show mc + 1 + rest.length = mc + (rest.length + 1)
    omega

/-- C7 witness: two parsed Media messages from a fresh loop state log once
and count twice, leaving the registry as it was. -/
theorem C7_media_logged_once_counted_each_witness :
    (runEngine cmOne 0 initialEngineState
        [jMediaWire, jMediaWire]).2.mediaLogCount
      = initialEngineState.mediaLogCount + 1 ∧
    (runEngine cmOne 0 initialEngineState
        [jMediaWire, jMediaWire]).2.message_count
      = initialEngineState.message_count + 2 ∧
    (runEngine cmOne 0 initialEngineState [jMediaWire, jMediaWire]).1
      = cmOne :=
  C7_media_logged_once_counted_each [jMediaWire, jMediaWire] cmOne 0
    initialEngineState (by decide) rfl rfl (by decide)

/-- Unrolling of the close_all loop over a registry with distinct keys: every
session is visited (its transport close attempted, in order), every session
is removed, and the returned count adds one per transport whose close did
not raise. -/
theorem closeAllLoop_spec (l : List (Nat × Session)) :
    ∀ (flag : Bool) (nid : Nat) (count : Nat) (closed : List Nat),
      (l.map Prod.fst).Nodup →
      closeAllLoop ⟨l, flag, nid⟩ (l.map Prod.fst) count closed
        = { closed_count :=
              count + (l.filter (fun p => !p.2.websocket.closeFails)).length,
            closedTransports := closed ++ l.map (fun p => p.2.websocket.wsId),
            manager := ⟨[], flag, nid⟩ } := by
  induction l with
  | nil =>
    intro flag nid count closed _
    simp [closeAllLoop]
  | cons p rest ih =>
    intro flag nid count closed hnd
    obtain ⟨k, s⟩ := p
    simp only [List.map_cons, List.nodup_cons] at hnd
    have hget : (⟨(k, s) :: rest, flag, nid⟩ : ConnectionManager).get_session k
        = some s := by
      show dictGet ((k, s) :: rest) k = some s
      rw [dictGet_cons, if_pos rfl]
    have hdis : (⟨(k, s) :: rest, flag, nid⟩ : ConnectionManager).disconnect k
        = ⟨rest, flag, nid⟩ := by
      show (⟨dictErase ((k, s) :: rest) k, flag, nid⟩ : ConnectionManager) = _
      rw [dictErase_cons, if_pos rfl, dictErase_of_not_mem rest k hnd.1]
    rw [List.map_cons, closeAllLoop, hget, hdis]
    dsimp only
    rw [ih flag nid _ _ hnd.2]
    cases hfail : s.websocket.closeFails with
    | true =>
      simp [List.filter_cons, hfail, CloseAllResult.mk.injEq,
        List.append_assoc]
    | false =>
      simp [List.filter_cons, hfail, CloseAllResult.mk.injEq,
        List.append_assoc]
      omega

/-- C6. For a registry with distinct keys, beginShutdown() then closeAll()
(no concurrent connects in this sequential model) leaves activeCount() at 0,
attempts the close of the transport of every session that was registered at
the start of the call (removing each session even when its close raises; the
failure is only logged), returns the count of transports closed without
error, and the shutdown flag stays set. -/
theorem C6_close_all_drains :
    ∀ (cm : ConnectionManager), keysNodup cm →
      cm.begin_shutdown.close_all.manager.sessions = [] ∧
      cm.begin_shutdown.close_all.manager.active_count = 0 ∧
      cm.begin_shutdown.close_all.closedTransports
        = cm.sessions.map (fun p => p.2.websocket.wsId) ∧
      cm.begin_shutdown.close_all.closed_count
        = (cm.sessions.filter (fun p => !p.2.websocket.closeFails)).length ∧
      cm.begin_shutdown.close_all.manager.is_shutting_down = true := by
  intro cm hnd
  obtain ⟨l, flag, nid⟩ := cm
  have hbs : ConnectionManager.begin_shutdown ⟨l, flag, nid⟩
      = ⟨l, true, nid⟩ := by
    cases flag <;> rfl
  rw [hbs]
  unfold ConnectionManager.close_all
  rw [closeAllLoop_spec l true nid 0 [] hnd]
  exact ⟨rfl, rfl, by simp, by simp, rfl⟩

/-- C6 witness: on the two-session manager (one healthy transport, one whose
close raises), shutdown then closeAll empties the registry, visits transports
7 and 9, and reports one successful close. -/
theorem C6_close_all_drains_witness :
    cmTwo.begin_shutdown.close_all.manager.sessions = [] ∧
    cmTwo.begin_shutdown.close_all.manager.active_count = 0 ∧
    cmTwo.begin_shutdown.close_all.closedTransports
      = cmTwo.sessions.map (fun p => p.2.websocket.wsId) ∧
    cmTwo.begin_shutdown.close_all.closed_count
      = (cmTwo.sessions.filter (fun p => !p.2.websocket.closeFails)).length ∧
    cmTwo.begin_shutdown.close_all.manager.is_shutting_down = true :=
  C6_close_all_drains cmTwo (by decide)

/-- C3 counterexample. The claim says that with bypass disabled a connection
attempt without the signature field is rejected before any session is
created, so activeCount() does not increase. The gate function itself would
reject (code 1008), but the media endpoint never invokes it: the connection
phase registers a session unconditionally, and activeCount() rises from
0 to 1 in a production (bypass disabled) configuration with no signature
header present. -/
theorem C3_gate_not_enforced_cex :
    validate_twilio_websocket "production" [] true = .reject 1008 ∧
    (receiveMediaHandshake "production" emptyManager wsOk "203.0.113.7" 5004
        [] []).2.active_count = 1 ∧
    ¬ (receiveMediaHandshake "production" emptyManager wsOk "203.0.113.7"
        5004 [] []).2.active_count = emptyManager.active_count :=
  ⟨rfl, rfl, by decide⟩

/-- C3 amended: the gate function validate_twilio_websocket implements the
claimed policy — with bypass disabled (environment other than development) a
request whose signature header is absent is rejected with policy-violation
closure code 1008, and with bypass enabled (development) every request is
allowed regardless of the signature — but the media endpoint does not invoke
the gate, so every connection attempt registers a session (activeCount
increases by one) whatever the environment and signature. -/
theorem C3_gate_policy_but_unwired :
    ∀ (env : String) (headers : List (String × String)) (valid : Bool)
      (cm : ConnectionManager) (ws : WebSocketHandle) (host : String)
      (port : Nat) (qp : List (String × String)),
      (env ≠ "development" → dictGet headers "X-Twilio-Signature" = none →
        validate_twilio_websocket env headers valid = .reject 1008) ∧
      (env = "development" →
        validate_twilio_websocket env headers valid = .allow) ∧
      (receiveMediaHandshake env cm ws host port headers qp).2.active_count
        = cm.active_count + 1 := by
  intro env headers valid cm ws host port qp
  refine ⟨?_, ?_, ?_⟩
  · intro hdev hsig
    unfold validate_twilio_websocket
    rw [if_neg hdev, hsig]
    rfl
  · intro hdev
    unfold validate_twilio_websocket
    rw [if_pos hdev]
  · unfold receiveMediaHandshake ConnectionManager.connect
      ConnectionManager.active_count
    simp

/-- C3 witness: in production with no signature header the gate rejects with
1008; in development with no headers at all it allows; and in production the
unguarded media endpoint still registers a session. -/
theorem C3_gate_policy_but_unwired_witness :
    validate_twilio_websocket "production" [("user-agent", "curl")] true
        = .reject 1008 ∧
    validate_twilio_websocket "development" [] false = .allow ∧
    (receiveMediaHandshake "production" emptyManager wsOk "203.0.113.7" 5004
        [("user-agent", "curl")] []).2.active_count
      = emptyManager.active_count + 1 :=
  ⟨(C3_gate_policy_but_unwired "production" [("user-agent", "curl")] true
      emptyManager wsOk "203.0.113.7" 5004 []).1 (by decide) rfl,
   (C3_gate_policy_but_unwired "development" [] false emptyManager wsOk
      "203.0.113.7" 5004 []).2.1 rfl,
   (C3_gate_policy_but_unwired "production" [("user-agent", "curl")] true
      emptyManager wsOk "203.0.113.7" 5004 [("user-agent", "curl")]).2.2⟩

end IVR
